import Mathlib

/-!
# Verification of the mySQLdbConnector Connection wrapper

A shallow embedding of `src/mySQLdbConnector.py`: a lightweight wrapper
around a MySQL driver.  Mutable object state is passed explicitly as a
`ConnState`; Python exceptions are modelled by an `Option PyErr` component
of each operation's result (together with the post-state, since Python
mutations survive a raised exception); the external driver (connection
handle plus cursor) is an oracle `CursorData` describing what the driver
would do on this call.  Wall-clock readings are passed in as integers
`now`; only their ordering and differences matter to the source.
-/

namespace MySQLdb

/-- Python exceptions that appear in the source.  `exception` is a plain
`Exception(msg)`; `connectError` stands for whatever
`MySQLConnector.Connect` raises when it cannot establish a handle. -/
inductive PyErr where
  | operationalError (msg : String)
  | integrityError (msg : String)
  | connectError (msg : String)
  | exception (msg : String)
  | attributeError (name : String)
  | keyError (key : String)
  | valueError (msg : String)
  deriving Repr, DecidableEq

instance {ε α : Type} [DecidableEq ε] [DecidableEq α] :
    DecidableEq (Except ε α) := fun a b =>
  match a, b with
  | .ok x, .ok y =>
    if h : x = y then .isTrue (by rw [h]) else .isFalse (fun hh => h (Except.ok.inj hh))
  | .error x, .error y =>
    if h : x = y then .isTrue (by rw [h]) else .isFalse (fun hh => h (Except.error.inj hh))
  | .ok _, .error _ => .isFalse (fun hh => Except.noConfusion hh)
  | .error _, .ok _ => .isFalse (fun hh => Except.noConfusion hh)

/-- The spec's name (`MultipleRowsError`) for the error raised by
`Connection.get`: in the source it is
`Exception('Multiple rows returned for Database.get() query')`. -/
def MultipleRowsError : PyErr :=
  .exception "Multiple rows returned for Database.get() query"

/-- The spec's name (`FieldNotFound`) for the error raised by
`Row.__getattr__` on a missing field: in the source, `AttributeError(name)`. -/
def FieldNotFound (name : String) : PyErr := .attributeError name

/-! ## Host string parsing (`Connection.__init__`)

Python strings are modelled as their character sequences (`List Char`) so
that the character-level operations of the source (`"/" in host`,
`host.split(':')`, `int(...)`) are directly computable. -/

/-- A Python string, as its sequence of characters. -/
abbrev PyStr : Type := List Char

/-- Python `s.split(sep)` for a single-character separator: split at every
occurrence, keeping empty pieces (`'a::b'.split(':') == ['a','','b']`,
`''.split(':') == ['']`). -/
def pySplit (sep : Char) : PyStr → List PyStr
  | [] => [[]]
  | x :: xs =>
    if x = sep then [] :: pySplit sep xs
    else
      match pySplit sep xs with
      | [] => [[x]]
      | g :: gs => (x :: g) :: gs

/-- Digits of a decimal literal folded to a natural number. -/
def digitsToNat (ds : List Char) : Nat :=
  ds.foldl (fun acc c => 10 * acc + (c.toNat - '0'.toNat)) 0

/-- Python `s.strip()`: surrounding whitespace removed. -/
def pyStrip (s : PyStr) : PyStr :=
  ((s.dropWhile Char.isWhitespace).reverse.dropWhile Char.isWhitespace).reverse

/-- Model of Python `int(s)` on strings: optional surrounding whitespace,
an optional sign, then at least one decimal digit; otherwise `ValueError`. -/
def pyInt (s : PyStr) : Except PyErr Int :=
  match pyStrip s with
  | '-' :: ds =>
      if ds ≠ [] ∧ ds.all Char.isDigit then .ok (-(digitsToNat ds : Int))
      else .error (.valueError (String.mk s))
  | '+' :: ds =>
      if ds ≠ [] ∧ ds.all Char.isDigit then .ok (digitsToNat ds : Int)
      else .error (.valueError (String.mk s))
  | ds =>
      if ds ≠ [] ∧ ds.all Char.isDigit then .ok (digitsToNat ds : Int)
      else .error (.valueError (String.mk s))

/-- The connection arguments derived from the `host` constructor argument:
either a unix-socket path, or a host name with a port. -/
structure HostArgs where
  unixSocket : Option PyStr
  host : Option PyStr
  port : Option Int
  deriving Repr, DecidableEq

/-- `Connection.__init__`, host branch: a string containing `/` is a path
to a MySQL socket file; otherwise it is split on `:` — exactly two pieces
give host and `int(port)`, anything else gives the whole string as host
with port 3306. -/
def parseHostArgs (host : PyStr) : Except PyErr HostArgs :=
  if '/' ∈ host then
    .ok { unixSocket := some host, host := none, port := none }
  else
    match pySplit ':' host with
    | [h, p] =>
        match pyInt p with
        | .ok n => .ok { unixSocket := none, host := some h, port := some n }
        | .error e => .error e
    | _ => .ok { unixSocket := none, host := some host, port := some 3306 }

/-! ## Connection state, reconnect, ensure_connected -/

/-- The mutable state of a `Connection` object that the claims touch:
the driver handle `_db` (present or absent), `_last_use_time`, and the
configured `max_idle_time`. -/
structure ConnState where
  db : Option Unit
  lastUseTime : Int
  maxIdleTime : Int
  deriving Repr, DecidableEq

/-- `Connection.reconnect`: `self.close()` (handle becomes absent), then
`self._db = MySQLConnector.Connect(**self._db_args)`.  `connectOk` is the
driver oracle: whether `Connect` succeeds on this attempt.  Returns the
raised exception (if any) together with the post-state. -/
def reconnect (connectOk : Bool) (s : ConnState) : Option PyErr × ConnState :=
  let s₁ : ConnState := { s with db := none }
  if connectOk then (none, { s₁ with db := some () })
  else (some (.connectError "Connect failed"), s₁)

/-- `Connection._ensure_connected`: reconnect if the handle is absent or
`time.time() - self._last_use_time > self.max_idle_time`; then set
`self._last_use_time = time.time()`.  Returns the number of `reconnect`
calls made, the raised exception (if any; a raise skips the timestamp
update), and the post-state. -/
def ensureConnected (connectOk : Bool) (now : Int) (s : ConnState) :
    Nat × Option PyErr × ConnState :=
  if s.db = none ∨ now - s.lastUseTime > s.maxIdleTime then
    match reconnect connectOk s with
    | (none, s₁) => (1, none, { s₁ with lastUseTime := now })
    | (some e, s₁) => (1, some e, s₁)
  else
    (0, none, { s with lastUseTime := now })

/-- Tail of `Connection.__init__`: `self._db = None; ...;
try: self.reconnect() except Exception: logging.error(...)`.
Never raises; returns the post-state and the number of error-log calls. -/
def initConnect (connectOk : Bool) (now maxIdle : Int) : ConnState × Nat :=
  match reconnect connectOk { db := none, lastUseTime := now, maxIdleTime := maxIdle } with
  | (none, s₁) => (s₁, 0)
  | (some _, s₁) => (s₁, 1)

/-! ## Cursor oracle and the execute/query family -/

/-- What the driver cursor does when `execute`/`executemany` is called on
this statement. -/
inductive ExecOutcome where
  | ok
  | opErr (msg : String)
  | intErr (msg : String)
  deriving Repr, DecidableEq

/-- Oracle for one driver cursor: the outcome of executing the statement,
the column metadata (`description` first components), the result rows,
and the `lastrowid` / `rowcount` attributes it reports. -/
structure CursorData where
  outcome : ExecOutcome
  description : List String
  rows : List (List Int)
  lastrowid : Int
  rowcount : Int
  deriving Repr, DecidableEq

/-- The second argument of `cursor.execute(query, kwparameters or parameters)`:
either the named-parameter dict or the positional tuple. -/
inductive BoundParams where
  | positional (ps : List Int)
  | named (ks : List (String × Int))
  deriving Repr, DecidableEq

/-- Python `kwparameters or parameters`: the dict if it is truthy
(non-empty), otherwise the positional tuple. -/
def bindParams (parameters : List Int) (kwparameters : List (String × Int)) :
    BoundParams :=
  if kwparameters.isEmpty then .positional parameters else .named kwparameters

/-- `Connection._execute`: `cursor.execute(query, kwparameters or parameters)`;
on `OperationalError` it logs, calls `self.close()` (handle absent) and
re-raises; other exceptions propagate untouched.  Returns the bound
parameters, the raised exception (if any), the post-state, and the number
of error-log calls. -/
def connExecute (cur : CursorData) (parameters : List Int)
    (kwparameters : List (String × Int)) (s : ConnState) :
    BoundParams × Option PyErr × ConnState × Nat :=
  let b := bindParams parameters kwparameters
  match cur.outcome with
  | .ok => (b, none, s, 0)
  | .opErr m => (b, some (.operationalError m), { s with db := none }, 1)
  | .intErr m => (b, some (.integrityError m), s, 0)

/-- A result row as built in `query`/`iter`:
`Row(zip(column_names, row))`. -/
abbrev PyRow : Type := List (String × Int)

/-- Everything observable about one call of a query/execute-family
operation: the returned value (`none` when an exception propagates), the
propagated exception, the parameters bound by `_execute` (when reached),
the handle after the call, the number of `reconnect` calls, the number of
error-log calls, and the number of `cursor.close()` calls. -/
structure OpResult (α : Type) where
  ret : Option α
  err : Option PyErr
  bound : Option BoundParams
  finalDb : Option Unit
  reconnects : Nat
  logs : Nat
  cursorCloses : Nat
  deriving Repr, DecidableEq

/-- Result of an operation that fails inside `self._cursor()` before a
cursor exists: no cursor close, no `_execute`, no log. -/
def preCursorFail (α : Type) (e : PyErr) (n : Nat) (s : ConnState) : OpResult α :=
  { ret := none, err := some e, bound := none, finalDb := s.db,
    reconnects := n, logs := 0, cursorCloses := 0 }

/-- `Connection.query`: acquire a cursor via `self._cursor()` (which runs
`_ensure_connected`), `try`: `_execute`, build `Row(zip(column_names, row))`
for each row, `finally`: `cursor.close()`. -/
def query (connectOk : Bool) (now : Int) (cur : CursorData) (s : ConnState)
    (parameters : List Int) (kwparameters : List (String × Int)) :
    OpResult (List PyRow) :=
  match ensureConnected connectOk now s with
  | (n, some e, s₁) => preCursorFail _ e n s₁
  | (n, none, s₁) =>
    match connExecute cur parameters kwparameters s₁ with
    | (b, some e, s₂, lg) =>
        { ret := none, err := some e, bound := some b, finalDb := s₂.db,
          reconnects := n, logs := lg, cursorCloses := 1 }
    | (b, none, s₂, lg) =>
        { ret := some (cur.rows.map fun r => cur.description.zip r),
          err := none, bound := some b, finalDb := s₂.db,
          reconnects := n, logs := lg, cursorCloses := 1 }

/-- `Connection.iter`: the generator acquires the cursor, `_execute`s, then
yields one `Row` per fetched row inside `try ... finally cursor.close()`.
`consumed` is how many rows the caller draws before abandoning the
generator (abandonment closes the generator and runs the `finally`);
drawing at least `cur.rows.length` exhausts it normally. -/
def iterOp (connectOk : Bool) (now : Int) (cur : CursorData) (s : ConnState)
    (parameters : List Int) (kwparameters : List (String × Int))
    (consumed : Nat) : OpResult (List PyRow) :=
  match ensureConnected connectOk now s with
  | (n, some e, s₁) => preCursorFail _ e n s₁
  | (n, none, s₁) =>
    match connExecute cur parameters kwparameters s₁ with
    | (b, some e, s₂, lg) =>
        { ret := none, err := some e, bound := some b, finalDb := s₂.db,
          reconnects := n, logs := lg, cursorCloses := 1 }
    | (b, none, s₂, lg) =>
        { ret := some ((cur.rows.map fun r => cur.description.zip r).take consumed),
          err := none, bound := some b, finalDb := s₂.db,
          reconnects := n, logs := lg, cursorCloses := 1 }

/-- `Connection.get`: run `query`; `None` for an empty list, the single
row for one, `raise Exception('Multiple rows returned ...')` for more. -/
def get (connectOk : Bool) (now : Int) (cur : CursorData) (s : ConnState)
    (parameters : List Int) (kwparameters : List (String × Int)) :
    OpResult (Option PyRow) :=
  let q := query connectOk now cur s parameters kwparameters
  match q.ret with
  | none =>
      { ret := none, err := q.err, bound := q.bound, finalDb := q.finalDb,
        reconnects := q.reconnects, logs := q.logs, cursorCloses := q.cursorCloses }
  | some rows =>
    match rows with
    | [] =>
        { ret := some none, err := none, bound := q.bound, finalDb := q.finalDb,
          reconnects := q.reconnects, logs := q.logs, cursorCloses := q.cursorCloses }
    | [r] =>
        { ret := some (some r), err := none, bound := q.bound, finalDb := q.finalDb,
          reconnects := q.reconnects, logs := q.logs, cursorCloses := q.cursorCloses }
    | _ :: _ :: _ =>
        { ret := none, err := some MultipleRowsError, bound := q.bound,
          finalDb := q.finalDb, reconnects := q.reconnects, logs := q.logs,
          cursorCloses := q.cursorCloses }

/-- `Connection.execute_lastrowid`: cursor, `try`: `_execute`, `return
cursor.lastrowid`, `finally`: `cursor.close()`. -/
def execute_lastrowid (connectOk : Bool) (now : Int) (cur : CursorData)
    (s : ConnState) (parameters : List Int)
    (kwparameters : List (String × Int)) : OpResult Int :=
  match ensureConnected connectOk now s with
  | (n, some e, s₁) => preCursorFail _ e n s₁
  | (n, none, s₁) =>
    match connExecute cur parameters kwparameters s₁ with
    | (b, some e, s₂, lg) =>
        { ret := none, err := some e, bound := some b, finalDb := s₂.db,
          reconnects := n, logs := lg, cursorCloses := 1 }
    | (b, none, s₂, lg) =>
        { ret := some cur.lastrowid, err := none, bound := some b,
          finalDb := s₂.db, reconnects := n, logs := lg, cursorCloses := 1 }

/-- `Connection.execute_rowcount`: as `execute_lastrowid` but returns
`cursor.rowcount`. -/
def execute_rowcount (connectOk : Bool) (now : Int) (cur : CursorData)
    (s : ConnState) (parameters : List Int)
    (kwparameters : List (String × Int)) : OpResult Int :=
  match ensureConnected connectOk now s with
  | (n, some e, s₁) => preCursorFail _ e n s₁
  | (n, none, s₁) =>
    match connExecute cur parameters kwparameters s₁ with
    | (b, some e, s₂, lg) =>
        { ret := none, err := some e, bound := some b, finalDb := s₂.db,
          reconnects := n, logs := lg, cursorCloses := 1 }
    | (b, none, s₂, lg) =>
        { ret := some cur.rowcount, err := none, bound := some b,
          finalDb := s₂.db, reconnects := n, logs := lg, cursorCloses := 1 }

/-- `Connection.execute` delegates to `execute_lastrowid`. -/
def execute := execute_lastrowid

/-- `insert = execute_lastrowid` (method alias in the source). -/
def insert := execute_lastrowid

/-- `update = execute_rowcount` (method alias in the source). -/
def update := execute_rowcount

/-- `Connection.executemany_lastrowid`: cursor, `try`:
`cursor.executemany(query, parameters)` — NOT routed through `_execute` —
`return cursor.lastrowid`, `finally`: `cursor.close()`. -/
def executemany_lastrowid (connectOk : Bool) (now : Int) (cur : CursorData)
    (s : ConnState) ( _paramSeq : List (List Int)) : OpResult Int :=
  match ensureConnected connectOk now s with
  | (n, some e, s₁) => preCursorFail _ e n s₁
  | (n, none, s₁) =>
    match cur.outcome with
    | .ok =>
        { ret := some cur.lastrowid, err := none, bound := none,
          finalDb := s₁.db, reconnects := n, logs := 0, cursorCloses := 1 }
    | .opErr m =>
        { ret := none, err := some (.operationalError m), bound := none,
          finalDb := s₁.db, reconnects := n, logs := 0, cursorCloses := 1 }
    | .intErr m =>
        { ret := none, err := some (.integrityError m), bound := none,
          finalDb := s₁.db, reconnects := n, logs := 0, cursorCloses := 1 }

/-- `Connection.executemany_rowcount`: as `executemany_lastrowid` but
returns `cursor.rowcount`. -/
def executemany_rowcount (connectOk : Bool) (now : Int) (cur : CursorData)
    (s : ConnState) ( _paramSeq : List (List Int)) : OpResult Int :=
  match ensureConnected connectOk now s with
  | (n, some e, s₁) => preCursorFail _ e n s₁
  | (n, none, s₁) =>
    match cur.outcome with
    | .ok =>
        { ret := some cur.rowcount, err := none, bound := none,
          finalDb := s₁.db, reconnects := n, logs := 0, cursorCloses := 1 }
    | .opErr m =>
        { ret := none, err := some (.operationalError m), bound := none,
          finalDb := s₁.db, reconnects := n, logs := 0, cursorCloses := 1 }
    | .intErr m =>
        { ret := none, err := some (.integrityError m), bound := none,
          finalDb := s₁.db, reconnects := n, logs := 0, cursorCloses := 1 }

/-- `executemany` delegates to `executemany_lastrowid`. -/
def executemany := executemany_lastrowid

/-- `insertmany = executemany_lastrowid` (method alias in the source). -/
def insertmany := executemany_lastrowid

/-- `updatemany = executemany_rowcount` (method alias in the source). -/
def updatemany := executemany_rowcount

/-! ## Row -/

/-- `Row.__getitem__` (inherited from `dict`): the value for the key, or
`KeyError`.  Column names are unique per row (cursor description), so the
first binding is the binding. -/
def rowItem (r : PyRow) (name : String) : Except PyErr Int :=
  match (r : List (String × Int)).lookup name with
  | some v => .ok v
  | none => .error (.keyError name)

/-- The non-dunder attributes the built-in `dict` type owns in CPython.
`Row` subclasses `dict`, and Python consults `__getattr__` only after
normal attribute lookup fails, so these names resolve to the inherited
bound methods and never reach `Row.__getattr__`.  (Dunder names such as
`__len__` shadow too; they are omitted here as they are not plausible
column names.) -/
def dictAttrNames : List String :=
  ["clear", "copy", "fromkeys", "get", "items", "keys",
   "pop", "popitem", "setdefault", "update", "values"]

/-- What Python attribute access on a `Row` yields: either a value from
the mapping (via `Row.__getattr__`), or a bound method inherited from
`dict`. -/
inductive AttrResult where
  | value (v : Int)
  | method (name : String)
  deriving Repr, DecidableEq

/-- `getattr(row, name)` for `class Row(dict)`: normal lookup finds the
inherited `dict` attribute if `name` is one; only otherwise is
`Row.__getattr__` consulted, which returns `self[name]` and turns the
`KeyError` of a missing key into `AttributeError(name)`. -/
def rowGetattr (r : PyRow) (name : String) : Except PyErr AttrResult :=
  if name ∈ dictAttrNames then .ok (.method name)
  else
    match rowItem r name with
    | .ok v => .ok (.value v)
    | .error _ => .error (.attributeError name)

/-! ## Theorems -/

/-- `s.split(c)` on a string not containing `c` is the whole string. -/
theorem pySplit_eq_of_not_mem (c : Char) :
    ∀ l : PyStr, c ∉ l → pySplit c l = [l]
  | [], _ => rfl
  | x :: xs, h => by
    have hx : ¬ x = c := fun hxc => h (hxc ▸ List.mem_cons_self x xs)
    have ih : pySplit c xs = [xs] :=
      pySplit_eq_of_not_mem c xs (fun hm => h (List.mem_cons_of_mem _ hm))
    simp [pySplit, hx, ih]

/-- C5: a host string containing "/" is treated as a filesystem socket path
and no host/port split is attempted; a host string of the form "h:p"
(split on ":" gives exactly the two pieces h and p) with p parsing as an
integer resolves to host h and port int(p); a host string containing no
":" resolves to the string itself with the port defaulting to 3306. -/
theorem C5_host_parsing (host h p : PyStr) (n : Int) :
    ('/' ∈ host →
      parseHostArgs host =
        .ok { unixSocket := some host, host := none, port := none }) ∧
    ('/' ∉ host → pySplit ':' host = [h, p] → pyInt p = .ok n →
      parseHostArgs host =
        .ok { unixSocket := none, host := some h, port := some n }) ∧
    ('/' ∉ host → ':' ∉ host →
      parseHostArgs host =
        .ok { unixSocket := none, host := some host, port := some 3306 }) := by
  refine ⟨fun hs => ?_, fun hns hsp hint => ?_, fun hns hnc => ?_⟩
  · simp [parseHostArgs, hs]
  · simp [parseHostArgs, hns, hsp, hint]
  · simp [parseHostArgs, hns, pySplit_eq_of_not_mem ':' host hnc]

/-- C5 witness: the three branches at the concrete host strings
"var/run/mysqld.sock", "example.com:3307" and "localhost". -/
theorem C5_host_parsing_witness :
    parseHostArgs "var/run/mysqld.sock".data =
      .ok { unixSocket := some "var/run/mysqld.sock".data, host := none,
            port := none } ∧
    parseHostArgs "example.com:3307".data =
      .ok { unixSocket := none, host := some "example.com".data,
            port := some 3307 } ∧
    parseHostArgs "localhost".data =
      .ok { unixSocket := none, host := some "localhost".data,
            port := some 3306 } :=
  ⟨(C5_host_parsing "var/run/mysqld.sock".data [] [] 0).1 (by decide),
   (C5_host_parsing "example.com:3307".data "example.com".data "3307".data
      3307).2.1 (by decide) (by decide) (by decide),
   (C5_host_parsing "localhost".data [] [] 0).2.2 (by decide) (by decide)⟩

/-- C1 counterexample: with the handle absent and the driver unable to
connect (`connectOk = false`), `_ensure_connected` at time 5 triggers the
reconnect, the raised error propagates, and the function exits with
`_last_use_time` still 0 — the claim's "on every exit it updates the
last-use timestamp to the current time" fails on this exit. -/
theorem C1_counterexample :
    ensureConnected false 5 { db := none, lastUseTime := 0, maxIdleTime := 100 } =
      (1, some (.connectError "Connect failed"),
        { db := none, lastUseTime := 0, maxIdleTime := 100 }) ∧
    ¬ (ensureConnected false 5
        { db := none, lastUseTime := 0, maxIdleTime := 100 }).2.2.lastUseTime = 5 := by
  decide

/-- C1 (amended): `_ensure_connected` triggers exactly one reconnect when
the handle is absent or the elapsed time since last use exceeds the
max-idle duration, and zero reconnects otherwise; whenever no exception
propagates (in particular whenever any triggered reconnect succeeds) it
updates the last-use timestamp to the current time on exit. -/
theorem C1_ensure_connected (ok : Bool) (now : Int) (s : ConnState) :
    (ensureConnected ok now s).1 =
      (if s.db = none ∨ now - s.lastUseTime > s.maxIdleTime then 1 else 0) ∧
    ((ensureConnected ok now s).2.1 = none →
      (ensureConnected ok now s).2.2.lastUseTime = now) ∧
    (ok = true → (ensureConnected ok now s).2.1 = none) := by
  by_cases h : s.db = none ∨ now - s.lastUseTime > s.maxIdleTime
  · cases ok <;> simp [ensureConnected, reconnect, h]
  · cases ok <;> simp [ensureConnected, reconnect, h]

/-- C1 witness: fresh handle at time 7 with idle budget 100 — zero
reconnects and the timestamp is updated to 7. -/
theorem C1_ensure_connected_witness :
    (ensureConnected true 7
      { db := some (), lastUseTime := 0, maxIdleTime := 100 }).1 = 0 ∧
    (ensureConnected true 7
      { db := some (), lastUseTime := 0, maxIdleTime := 100 }).2.2.lastUseTime = 7 :=
  ⟨((C1_ensure_connected true 7
      { db := some (), lastUseTime := 0, maxIdleTime := 100 }).1).trans (by decide),
   (C1_ensure_connected true 7
      { db := some (), lastUseTime := 0, maxIdleTime := 100 }).2.1 (by decide)⟩

/-- C2 counterexample: a live, fresh connection (handle present, not
idle) whose cursor raises `OperationalError` during
`executemany_rowcount`.  The error is re-raised, but the handle is still
present afterwards and nothing was logged — the batch variants call
`cursor.executemany` directly, bypassing `_execute`'s
`except OperationalError` block, so the claim fails for them. -/
theorem C2_counterexample :
    (executemany_rowcount true 5 ⟨.opErr "gone", [], [], 0, 0⟩
      { db := some (), lastUseTime := 0, maxIdleTime := 100 } []).err =
        some (.operationalError "gone") ∧
    ¬ (executemany_rowcount true 5 ⟨.opErr "gone", [], [], 0, 0⟩
      { db := some (), lastUseTime := 0, maxIdleTime := 100 } []).finalDb = none ∧
    ¬ (executemany_rowcount true 5 ⟨.opErr "gone", [], [], 0, 0⟩
      { db := some (), lastUseTime := 0, maxIdleTime := 100 } []).logs = 1 := by
  decide

/-- C2 (amended): when the driver raises `OperationalError` during
statement execution, every single-statement operation (`query`, `get`,
`iter`, `execute_lastrowid`, `execute_rowcount`) logs the failure once,
force-closes the handle (absent afterwards, forcing a reconnect on next
use), and re-raises the original error unchanged with no retry; the batch
`executemany_lastrowid`/`executemany_rowcount` variants also re-raise the
original error unchanged with no retry (cursor still closed), but they do
not log and do not force-close the handle, which keeps whatever state
`_ensure_connected` left it in. -/
theorem C2_operational_error (ok : Bool) (now : Int) (cur : CursorData)
    (s : ConnState) (ps : List Int) (kw : List (String × Int)) (k : Nat)
    (pseq : List (List Int)) (m : String)
    (hout : cur.outcome = .opErr m)
    (hE : (ensureConnected ok now s).2.1 = none) :
    query ok now cur s ps kw =
      { ret := none, err := some (.operationalError m),
        bound := some (bindParams ps kw), finalDb := none,
        reconnects := (ensureConnected ok now s).1, logs := 1,
        cursorCloses := 1 } ∧
    iterOp ok now cur s ps kw k =
      { ret := none, err := some (.operationalError m),
        bound := some (bindParams ps kw), finalDb := none,
        reconnects := (ensureConnected ok now s).1, logs := 1,
        cursorCloses := 1 } ∧
    get ok now cur s ps kw =
      { ret := none, err := some (.operationalError m),
        bound := some (bindParams ps kw), finalDb := none,
        reconnects := (ensureConnected ok now s).1, logs := 1,
        cursorCloses := 1 } ∧
    execute_lastrowid ok now cur s ps kw =
      { ret := none, err := some (.operationalError m),
        bound := some (bindParams ps kw), finalDb := none,
        reconnects := (ensureConnected ok now s).1, logs := 1,
        cursorCloses := 1 } ∧
    execute_rowcount ok now cur s ps kw =
      { ret := none, err := some (.operationalError m),
        bound := some (bindParams ps kw), finalDb := none,
        reconnects := (ensureConnected ok now s).1, logs := 1,
        cursorCloses := 1 } ∧
    executemany_lastrowid ok now cur s pseq =
      { ret := none, err := some (.operationalError m), bound := none,
        finalDb := (ensureConnected ok now s).2.2.db,
        reconnects := (ensureConnected ok now s).1, logs := 0,
        cursorCloses := 1 } ∧
    executemany_rowcount ok now cur s pseq =
      { ret := none, err := some (.operationalError m), bound := none,
        finalDb := (ensureConnected ok now s).2.2.db,
        reconnects := (ensureConnected ok now s).1, logs := 0,
        cursorCloses := 1 } := by
  rcases hEeq : ensureConnected ok now s with ⟨n, e, s₁⟩
  rw [hEeq] at hE
  simp only at hE
  subst hE
  simp [query, iterOp, get, execute_lastrowid, execute_rowcount,
        executemany_lastrowid, executemany_rowcount, connExecute, hEeq, hout]

/-- C2 witness: the single-statement path on a live fresh connection
logs, clears the handle and re-raises; the batch path leaves the handle
in place. -/
theorem C2_operational_error_witness :
    query true 5 ⟨.opErr "gone", [], [], 0, 0⟩
      { db := some (), lastUseTime := 0, maxIdleTime := 100 } [] [] =
      { ret := none, err := some (.operationalError "gone"),
        bound := some (.positional []), finalDb := none,
        reconnects := 0, logs := 1, cursorCloses := 1 } ∧
    executemany_rowcount true 5 ⟨.opErr "gone", [], [], 0, 0⟩
      { db := some (), lastUseTime := 0, maxIdleTime := 100 } [] =
      { ret := none, err := some (.operationalError "gone"), bound := none,
        finalDb := some (), reconnects := 0, logs := 0,
        cursorCloses := 1 } := by
  have h := C2_operational_error true 5 ⟨.opErr "gone", [], [], 0, 0⟩
    { db := some (), lastUseTime := 0, maxIdleTime := 100 } [] [] 0 [] "gone"
    (by decide) (by decide)
  exact ⟨h.1, h.2.2.2.2.2.2⟩

/-- C3: `get` returns `None` for an empty result set, the single row
(column names zipped with the fetched tuple) for a one-row result set,
and raises the multiple-rows error for two or more rows. -/
theorem C3_get (ok : Bool) (now : Int) (cur : CursorData) (s : ConnState)
    (ps : List Int) (kw : List (String × Int))
    (hout : cur.outcome = .ok)
    (hE : (ensureConnected ok now s).2.1 = none) :
    (cur.rows = [] →
      (get ok now cur s ps kw).ret = some none ∧
      (get ok now cur s ps kw).err = none) ∧
    (∀ r, cur.rows = [r] →
      (get ok now cur s ps kw).ret = some (some (cur.description.zip r)) ∧
      (get ok now cur s ps kw).err = none) ∧
    (2 ≤ cur.rows.length →
      (get ok now cur s ps kw).ret = none ∧
      (get ok now cur s ps kw).err = some MultipleRowsError) := by
  rcases hEeq : ensureConnected ok now s with ⟨n, e, s₁⟩
  rw [hEeq] at hE
  simp only at hE
  subst hE
  refine ⟨fun hr => ?_, fun r hr => ?_, fun hlen => ?_⟩
  · simp [get, query, connExecute, hEeq, hout, hr]
  · simp [get, query, connExecute, hEeq, hout, hr]
  · rcases hrows : cur.rows with _ | ⟨a, _ | ⟨b, t⟩⟩
    · rw [hrows] at hlen; simp at hlen
    · rw [hrows] at hlen; simp at hlen
    · simp [get, query, connExecute, hEeq, hout, hrows]

/-- C3 witness: result sets of size 0, 1 and 2 on a live fresh
connection. -/
theorem C3_get_witness :
    (get true 5 ⟨.ok, ["a", "b"], [], 0, 0⟩
      { db := some (), lastUseTime := 0, maxIdleTime := 100 } [] []).ret =
        some none ∧
    (get true 5 ⟨.ok, ["a", "b"], [[1, 2]], 0, 0⟩
      { db := some (), lastUseTime := 0, maxIdleTime := 100 } [] []).ret =
        some (some [("a", 1), ("b", 2)]) ∧
    (get true 5 ⟨.ok, ["a", "b"], [[1, 2], [3, 4]], 0, 0⟩
      { db := some (), lastUseTime := 0, maxIdleTime := 100 } [] []).err =
        some MultipleRowsError :=
  ⟨((C3_get true 5 ⟨.ok, ["a", "b"], [], 0, 0⟩
      { db := some (), lastUseTime := 0, maxIdleTime := 100 } [] []
      (by decide) (by decide)).1 rfl).1,
   (((C3_get true 5 ⟨.ok, ["a", "b"], [[1, 2]], 0, 0⟩
      { db := some (), lastUseTime := 0, maxIdleTime := 100 } [] []
      (by decide) (by decide)).2.1 [1, 2] rfl).1).trans (by decide),
   ((C3_get true 5 ⟨.ok, ["a", "b"], [[1, 2], [3, 4]], 0, 0⟩
      { db := some (), lastUseTime := 0, maxIdleTime := 100 } [] []
      (by decide) (by decide)).2.2 (by decide)).2⟩

/-- C4: once the cursor for an operation has been acquired (i.e.
`_ensure_connected` raised nothing), `cursor.close()` runs exactly once on
every control path — normal completion, `IntegrityError`,
`OperationalError` (the cursor oracle is arbitrary here), and early
termination of the lazy `iter` after consuming any number `k` of rows. -/
theorem C4_cursor_closed (ok : Bool) (now : Int) (cur : CursorData)
    (s : ConnState) (ps : List Int) (kw : List (String × Int)) (k : Nat)
    (pseq : List (List Int))
    (hE : (ensureConnected ok now s).2.1 = none) :
    (query ok now cur s ps kw).cursorCloses = 1 ∧
    (iterOp ok now cur s ps kw k).cursorCloses = 1 ∧
    (get ok now cur s ps kw).cursorCloses = 1 ∧
    (execute_lastrowid ok now cur s ps kw).cursorCloses = 1 ∧
    (execute_rowcount ok now cur s ps kw).cursorCloses = 1 ∧
    (executemany_lastrowid ok now cur s pseq).cursorCloses = 1 ∧
    (executemany_rowcount ok now cur s pseq).cursorCloses = 1 := by
  rcases hEeq : ensureConnected ok now s with ⟨n, e, s₁⟩
  rw [hEeq] at hE
  simp only at hE
  subst hE
  have hget : (get ok now cur s ps kw).cursorCloses = 1 := by
    rcases hout : cur.outcome with _ | m | m <;>
      rcases hrows : cur.rows with _ | ⟨a, _ | ⟨b, t⟩⟩ <;>
      simp [get, query, connExecute, hEeq, hout, hrows]
  rcases hout : cur.outcome with _ | m | m <;>
    simp [query, iterOp, execute_lastrowid, execute_rowcount,
          executemany_lastrowid, executemany_rowcount, connExecute, hEeq, hout, hget]

/-- C4 witness: a three-row result set with the iterator abandoned after
one row; every operation closes its cursor exactly once. -/
theorem C4_cursor_closed_witness :
    (query true 5 ⟨.ok, ["a"], [[1], [2], [3]], 7, 9⟩
      { db := some (), lastUseTime := 0, maxIdleTime := 100 } [] []).cursorCloses = 1 ∧
    (iterOp true 5 ⟨.ok, ["a"], [[1], [2], [3]], 7, 9⟩
      { db := some (), lastUseTime := 0, maxIdleTime := 100 } [] [] 1).cursorCloses = 1 :=
  ⟨(C4_cursor_closed true 5 ⟨.ok, ["a"], [[1], [2], [3]], 7, 9⟩
      { db := some (), lastUseTime := 0, maxIdleTime := 100 } [] [] 1 []
      (by decide)).1,
   (C4_cursor_closed true 5 ⟨.ok, ["a"], [[1], [2], [3]], 7, 9⟩
      { db := some (), lastUseTime := 0, maxIdleTime := 100 } [] [] 1 []
      (by decide)).2.1⟩

/-- C6: on successful execution, `execute` (alias `insert`, both
delegating to `execute_lastrowid`) returns the cursor's `lastrowid`
unchanged; `execute_rowcount` (alias `update`) returns the cursor's
`rowcount` unchanged; the batch variants `executemany` /
`executemany_lastrowid` / `insertmany` and `executemany_rowcount` /
`updatemany` return those same respective cursor values unchanged.  The
cursor fields are arbitrary, so this covers the stubbed values 0, 1, 42. -/
theorem C6_return_values (ok : Bool) (now : Int) (cur : CursorData)
    (s : ConnState) (ps : List Int) (kw : List (String × Int))
    (pseq : List (List Int))
    (hout : cur.outcome = .ok)
    (hE : (ensureConnected ok now s).2.1 = none) :
    (execute ok now cur s ps kw).ret = some cur.lastrowid ∧
    (insert ok now cur s ps kw).ret = some cur.lastrowid ∧
    (execute_lastrowid ok now cur s ps kw).ret = some cur.lastrowid ∧
    (execute_rowcount ok now cur s ps kw).ret = some cur.rowcount ∧
    (update ok now cur s ps kw).ret = some cur.rowcount ∧
    (executemany ok now cur s pseq).ret = some cur.lastrowid ∧
    (executemany_lastrowid ok now cur s pseq).ret = some cur.lastrowid ∧
    (insertmany ok now cur s pseq).ret = some cur.lastrowid ∧
    (executemany_rowcount ok now cur s pseq).ret = some cur.rowcount ∧
    (updatemany ok now cur s pseq).ret = some cur.rowcount := by
  rcases hEeq : ensureConnected ok now s with ⟨n, e, s₁⟩
  rw [hEeq] at hE
  simp only at hE
  subst hE
  simp [execute, insert, update, executemany, insertmany, updatemany,
        execute_lastrowid, execute_rowcount, executemany_lastrowid,
        executemany_rowcount, connExecute, hEeq, hout]

/-- C6 witness: a cursor reporting `lastrowid = 42` and `rowcount = 1`. -/
theorem C6_return_values_witness :
    (execute true 5 ⟨.ok, [], [], 42, 1⟩
      { db := some (), lastUseTime := 0, maxIdleTime := 100 } [] []).ret =
        some 42 ∧
    (update true 5 ⟨.ok, [], [], 42, 1⟩
      { db := some (), lastUseTime := 0, maxIdleTime := 100 } [] []).ret =
        some 1 ∧
    (updatemany true 5 ⟨.ok, [], [], 42, 1⟩
      { db := some (), lastUseTime := 0, maxIdleTime := 100 } []).ret =
        some 1 :=
  ⟨(C6_return_values true 5 ⟨.ok, [], [], 42, 1⟩
      { db := some (), lastUseTime := 0, maxIdleTime := 100 } [] [] []
      (by decide) (by decide)).1,
   (C6_return_values true 5 ⟨.ok, [], [], 42, 1⟩
      { db := some (), lastUseTime := 0, maxIdleTime := 100 } [] [] []
      (by decide) (by decide)).2.2.2.2.1,
   (C6_return_values true 5 ⟨.ok, [], [], 42, 1⟩
      { db := some (), lastUseTime := 0, maxIdleTime := 100 } [] [] []
      (by decide) (by decide)).2.2.2.2.2.2.2.2.2⟩

/-- C7: in the execute/query family, a non-empty named-parameter mapping
is what gets bound and the positional parameters are ignored entirely
(the whole observable result is independent of them); with no named
parameters (in Python, the keyword dict is then empty) the positional
parameters are bound. -/
theorem C7_named_params_precedence (ok : Bool) (now : Int)
    (cur : CursorData) (s : ConnState) (ps ps' : List Int)
    (kw : List (String × Int))
    (hE : (ensureConnected ok now s).2.1 = none) :
    (kw ≠ [] →
      (query ok now cur s ps kw).bound = some (.named kw) ∧
      query ok now cur s ps kw = query ok now cur s ps' kw ∧
      (execute_lastrowid ok now cur s ps kw).bound = some (.named kw) ∧
      execute_lastrowid ok now cur s ps kw = execute_lastrowid ok now cur s ps' kw ∧
      (execute_rowcount ok now cur s ps kw).bound = some (.named kw) ∧
      execute_rowcount ok now cur s ps kw = execute_rowcount ok now cur s ps' kw) ∧
    ((query ok now cur s ps []).bound = some (.positional ps) ∧
     (execute_lastrowid ok now cur s ps []).bound = some (.positional ps) ∧
     (execute_rowcount ok now cur s ps []).bound = some (.positional ps)) := by
  rcases hEeq : ensureConnected ok now s with ⟨n, e, s₁⟩
  rw [hEeq] at hE
  simp only at hE
  subst hE
  constructor
  · intro hkw
    rcases hk : kw with _ | ⟨a, t⟩
    · exact absurd hk hkw
    · rcases hout : cur.outcome with _ | m | m <;>
        simp [query, execute_lastrowid, execute_rowcount, connExecute,
              bindParams, hEeq, hout]
  · rcases hout : cur.outcome with _ | m | m <;>
      simp [query, execute_lastrowid, execute_rowcount, connExecute,
            bindParams, hEeq, hout]

/-- C7 witness: with named parameters `[("x", 1)]` the binding is the
named mapping whatever the positional tuple is; with none it is the
positional tuple. -/
theorem C7_named_params_precedence_witness :
    (query true 5 ⟨.ok, [], [], 0, 0⟩
      { db := some (), lastUseTime := 0, maxIdleTime := 100 }
      [9, 8] [("x", 1)]).bound = some (.named [("x", 1)]) ∧
    query true 5 ⟨.ok, [], [], 0, 0⟩
      { db := some (), lastUseTime := 0, maxIdleTime := 100 } [9, 8] [("x", 1)] =
    query true 5 ⟨.ok, [], [], 0, 0⟩
      { db := some (), lastUseTime := 0, maxIdleTime := 100 } [7] [("x", 1)] ∧
    (query true 5 ⟨.ok, [], [], 0, 0⟩
      { db := some (), lastUseTime := 0, maxIdleTime := 100 }
      [9, 8] []).bound = some (.positional [9, 8]) :=
  ⟨((C7_named_params_precedence true 5 ⟨.ok, [], [], 0, 0⟩
      { db := some (), lastUseTime := 0, maxIdleTime := 100 } [9, 8] [7]
      [("x", 1)] (by decide)).1 (by decide)).1,
   ((C7_named_params_precedence true 5 ⟨.ok, [], [], 0, 0⟩
      { db := some (), lastUseTime := 0, maxIdleTime := 100 } [9, 8] [7]
      [("x", 1)] (by decide)).1 (by decide)).2.1,
   (C7_named_params_precedence true 5 ⟨.ok, [], [], 0, 0⟩
      { db := some (), lastUseTime := 0, maxIdleTime := 100 } [9, 8] [7]
      [("x", 1)] (by decide)).2.1⟩

/-- C10: in `_execute`, `cursor.execute(query, kwparameters or parameters)`
binds the positional tuple exactly when the named mapping is empty
(Python `or` on a falsy empty dict), and binds the named mapping exactly
when it is non-empty; the cursor outcome and connection state play no
part in the choice. -/
theorem C10_empty_named_mapping (cur : CursorData) (ps : List Int)
    (kw : List (String × Int)) (s : ConnState) :
    ((connExecute cur ps kw s).1 = .positional ps ↔ kw = []) ∧
    ((connExecute cur ps kw s).1 = .named kw ↔ kw ≠ []) := by
  have hb : ∀ kw' : List (String × Int),
      (connExecute cur ps kw' s).1 = bindParams ps kw' := by
    intro kw'
    rcases hout : cur.outcome with _ | m | m <;> simp [connExecute, hout]
  rcases kw with _ | ⟨a, t⟩ <;> simp [hb, bindParams]

/-- C8 counterexample: the column name `keys` is also a `dict` attribute.
On `Row({'keys': 7})`, keyed access returns 7 but attribute access
resolves to the inherited bound method `dict.keys` (Python consults
`__getattr__` only after normal attribute lookup fails), not the value. -/
theorem C8_counterexample :
    rowItem [("keys", 7)] "keys" = .ok 7 ∧
    rowGetattr [("keys", 7)] "keys" = .ok (.method "keys") ∧
    ¬ rowGetattr [("keys", 7)] "keys" = .ok (.value 7) := by
  decide

/-- C8 (amended): for every column name that is not the name of an
attribute inherited from `dict`, keyed access and attribute access return
identical values when the column is present, and attribute access on an
absent name raises `FieldNotFound` (an `AttributeError`), which is
distinct from the generic missing-key `KeyError` that keyed access
raises.  Column names that collide with inherited `dict` attributes
(`keys`, `items`, `values`, `get`, ...) resolve to the inherited method
instead. -/
theorem C8_row_access (r : PyRow) (name : String) (v : Int)
    (hshadow : name ∉ dictAttrNames) :
    (r.lookup name = some v →
      rowItem r name = .ok v ∧ rowGetattr r name = .ok (.value v)) ∧
    (r.lookup name = none →
      rowGetattr r name = .error (FieldNotFound name) ∧
      rowItem r name = .error (.keyError name) ∧
      FieldNotFound name ≠ .keyError name) := by
  constructor
  · intro hv
    simp [rowItem, rowGetattr, hshadow, hv]
  · intro hv
    simp [rowItem, rowGetattr, FieldNotFound, hshadow, hv]

/-- C8 witness: `Row({'user': 3})` — present column `user`, absent column
`uesr`. -/
theorem C8_row_access_witness :
    (rowItem [("user", 3)] "user" = .ok 3 ∧
     rowGetattr [("user", 3)] "user" = .ok (.value 3)) ∧
    (rowGetattr [("user", 3)] "uesr" = .error (FieldNotFound "uesr") ∧
     rowItem [("user", 3)] "uesr" = .error (.keyError "uesr") ∧
     FieldNotFound "uesr" ≠ .keyError "uesr") :=
  ⟨(C8_row_access [("user", 3)] "user" 3 (by decide)).1 (by decide),
   (C8_row_access [("user", 3)] "uesr" 3 (by decide)).2 (by decide)⟩

/-- C9: a failed connect attempt at construction is counted as one logged
error and swallowed — `initConnect` returns normally with the handle
absent; the very next query operation triggers exactly one reconnect
(retrying the connect), and when the reconnect fails outside construction
the error propagates to the caller instead of being swallowed. -/
theorem C9_init_failure_swallowed (now maxIdle now2 : Int)
    (cur : CursorData) (ps : List Int) (kw : List (String × Int)) :
    initConnect false now maxIdle =
      ({ db := none, lastUseTime := now, maxIdleTime := maxIdle }, 1) ∧
    (initConnect true now maxIdle).1.db = some () ∧
    (initConnect true now maxIdle).2 = 0 ∧
    (query true now2 cur (initConnect false now maxIdle).1 ps kw).reconnects = 1 ∧
    (query false now2 cur (initConnect false now maxIdle).1 ps kw).err =
      some (.connectError "Connect failed") ∧
    (reconnect false (initConnect false now maxIdle).1).1 =
      some (.connectError "Connect failed") := by
  refine ⟨by simp [initConnect, reconnect], by simp [initConnect, reconnect],
          by simp [initConnect, reconnect], ?_, ?_,
          by simp [initConnect, reconnect]⟩
  · rcases hout : cur.outcome with _ | m | m <;>
      simp [query, preCursorFail, ensureConnected, initConnect, reconnect,
            connExecute, hout]
  · simp [query, preCursorFail, ensureConnected, initConnect, reconnect]

end MySQLdb
